import Mathlib

/-!
Shallow embedding of the trust-and-storage layer of libsignal-protocol-rs:
the key subsystem (keys/public.rs, keys/private.rs), the store adapter layer
(stores/identity_key_store.rs, stores/pre_key_store.rs), the store-context
facade (store_context.rs) and the signal-message conversions
(messages/signal_message.rs).  The protocol engine (the sys crate) is external:
engine calls are embedded by taking the engine's status code or output as an
explicit argument, and the handful of engine/crate pieces the six source files
rely on but that are not part of the sources (the error-code table of
errors.rs, the catch-unwind macro, the engine side of session and identity
lookup) are modelled from the specification, each marked as such.
-/

deriving instance DecidableEq for Except

/-- Engine status code for success, SG_SUCCESS. -/
def SG_SUCCESS : Int := 0

/-- Modelled from the spec: the error type of errors.rs is not among the
sources.  The spec fixes a taxonomy of failure kinds tied to an integer code
table in which 0 means success or a false-like answer, 1 a true-like answer,
specific negative codes map to specific failure kinds, and every unmapped code
falls back to the unknown engine error. -/
inductive InternalError where
  | noMemory
  | invalidArgument
  | unknown
  | duplicateMessage
  | invalidKey
  | invalidKeyId
  | invalidMac
  | invalidMessage
  | invalidVersion
  | legacyMessage
  | noSession
  | staleKeyExchange
  | untrustedIdentity
  | vrfSigVerifFailed
  | invalidProtoBuf
  | fpVersionMismatch
  | fpIdentMismatch
deriving DecidableEq

/-- Modelled from the spec: the fixed negative engine status code of each
specific failure kind. -/
def InternalError.code : InternalError → Int
  | .noMemory => -12
  | .invalidArgument => -22
  | .unknown => -1000
  | .duplicateMessage => -1001
  | .invalidKey => -1002
  | .invalidKeyId => -1003
  | .invalidMac => -1004
  | .invalidMessage => -1005
  | .invalidVersion => -1006
  | .legacyMessage => -1007
  | .noSession => -1008
  | .staleKeyExchange => -1009
  | .untrustedIdentity => -1010
  | .vrfSigVerifFailed => -1011
  | .invalidProtoBuf => -1100
  | .fpVersionMismatch => -1200
  | .fpIdentMismatch => -1201

/-- Modelled from the spec: the code-table lookup used as
InternalError::from_error_code; a code outside the table yields none. -/
def InternalError.from_error_code (c : Int) : Option InternalError :=
  if c = -12 then some .noMemory
  else if c = -22 then some .invalidArgument
  else if c = -1000 then some .unknown
  else if c = -1001 then some .duplicateMessage
  else if c = -1002 then some .invalidKey
  else if c = -1003 then some .invalidKeyId
  else if c = -1004 then some .invalidMac
  else if c = -1005 then some .invalidMessage
  else if c = -1006 then some .invalidVersion
  else if c = -1007 then some .legacyMessage
  else if c = -1008 then some .noSession
  else if c = -1009 then some .staleKeyExchange
  else if c = -1010 then some .untrustedIdentity
  else if c = -1011 then some .vrfSigVerifFailed
  else if c = -1100 then some .invalidProtoBuf
  else if c = -1200 then some .fpVersionMismatch
  else if c = -1201 then some .fpIdentMismatch
  else none

/-- Modelled from the spec: the crate-level error type of errors.rs is not
among the sources; it carries an engine failure kind or a crate-specific
variant such as the no-signal-message conversion failure. -/
inductive Error where
  | internal (e : InternalError)
  | noSignalMessage
deriving DecidableEq

/-- Modelled from the spec: the status code an error is reported as across the
engine boundary; every failure kind reports a negative code, crate-specific
variants report the unknown engine code. -/
def Error.code : Error → Int
  | .internal e => e.code
  | .noSignalMessage => InternalError.unknown.code

/-- Modelled from the spec: FromInternalErrorCode::into_result of errors.rs is
not among the sources; an engine status code of 0 is success and any other
code maps through the fixed table, falling back to the unknown engine
error. -/
def into_result (c : Int) : Except InternalError Unit :=
  if c = 0 then .ok ()
  else .error ((InternalError.from_error_code c).getD .unknown)

/-- Engine-owned byte buffers are embedded as their byte contents. -/
abbrev Buffer := List Nat

/-- Translation of Address: a remote client device, a name byte string plus a
32-bit device id. -/
structure Address where
  name : List Nat
  device_id : Int
deriving DecidableEq

/-! ## Key pair subsystem (keys/public.rs, keys/private.rs) -/

/-- Translation of PublicKey: the engine's ec_public_key is an opaque curve
point whose canonical encoding is a marker byte plus a 32-byte coordinate; the
embedding carries the coordinate bytes. -/
structure PublicKey where
  coord : List Nat
deriving DecidableEq

/-- Translation of PrivateKey: the engine's ec_private_key, a 32-byte
scalar. -/
structure PrivateKey where
  scalar : List Nat
deriving DecidableEq

/-- Byte value of the key-type marker that prefixes an encoded public key. -/
def DJB_TYPE : Nat := 5

/-- Error kinds of public.rs operations, which return dynamic failure errors:
the invalid-signature message, the unknown-error-code message, the
shared-secret failure message, and a converted engine failure kind.  The
constructors stand for the distinct error values the source builds. -/
inductive FailureError where
  | internal (e : InternalError)
  | invalidSignature
  | unknownCode (c : Int)
  | agreementError
deriving DecidableEq

/-- Modelled from the spec: curve_decode_point is engine code, not among the
sources; a valid encoding is exactly the marker byte 0x05 followed by a
32-byte coordinate, and a bad marker or length fails with the invalid-key
kind (the error PublicKey::decode_point then surfaces). -/
def PublicKey.decode_point (key : List Nat) : Except FailureError PublicKey :=
  if key.length = 33 ∧ key.head? = some DJB_TYPE then .ok ⟨key.drop 1⟩
  else .error (.internal .invalidKey)

/-- Modelled from the spec: ec_public_key_serialize is engine code, not among
the sources; it writes the canonical marker byte plus the 32-byte
coordinate. -/
def PublicKey.serialize (k : PublicKey) : List Nat := DJB_TYPE :: k.coord

/-- Translation of PublicKey::verify_signature from keys/public.rs, with the
return value of the engine call curve_verify_signature as the input: 1 is a
valid signature, 0 an invalid one, and any other code is mapped through the
error-code table, an unmapped code becoming the unknown-code error. -/
def PublicKey.verify_signature (result : Int) : Except FailureError Unit :=
  if result = 1 then .ok ()
  else if result = 0 then .error .invalidSignature
  else
    match InternalError.from_error_code result with
    | some err => .error (.internal err)
    | none => .error (.unknownCode result)

/-- Engine or computation failure a non-boolean verify-signature code maps to:
the else-branch of PublicKey::verify_signature. -/
def engine_failure (c : Int) : FailureError :=
  match InternalError.from_error_code c with
  | some err => .internal err
  | none => .unknownCode c

/-- Semantics of the Rust cast from a c_int to a usize on a 64-bit target:
sign extension, i.e. the value modulo 2 to the 64. -/
def usize_of_c_int (c : Int) : Nat := (c % (2 : Int) ^ 64).toNat

/-- Translation of PublicKey::calculate_agreement from keys/public.rs, with
the return value of the engine call curve_calculate_agreement as the input.
The source casts the c_int to usize first and only then tests it against
zero; on success it reads a slice of exactly that many bytes, so the
embedding returns the byte length of the shared secret handed to the
caller. -/
def PublicKey.calculate_agreement (ret : Int) : Except FailureError Nat :=
  let length := usize_of_c_int ret
  if length > 0 then .ok length
  else .error .agreementError

/-- Modelled from the spec: ec_public_key_compare and ec_private_key_compare
are engine code, not among the sources; the engine supplies a canonical byte
comparison of the key material, negative, zero or positive. -/
def byte_compare : List Nat → List Nat → Int
  | [], [] => 0
  | [], _ :: _ => -1
  | _ :: _, [] => 1
  | x :: xs, y :: ys =>
    if x < y then -1
    else if y < x then 1
    else byte_compare xs ys

/-- Engine comparison of two public keys on their canonical byte material. -/
def ec_public_key_compare (a b : PublicKey) : Int :=
  byte_compare a.coord b.coord

/-- Engine comparison of two private keys on their canonical byte material. -/
def ec_private_key_compare (a b : PrivateKey) : Int :=
  byte_compare a.scalar b.scalar

/-- Translation of the Ord impl for PublicKey in keys/public.rs: the engine
comparison's sign picks the Ordering. -/
def PublicKey.cmp (a b : PublicKey) : Ordering :=
  let c := ec_public_key_compare a b
  if c < 0 then .lt
  else if c > 0 then .gt
  else .eq

/-- Translation of the PartialEq impl for PublicKey in keys/public.rs:
equality holds exactly when the comparison answers Equal. -/
def PublicKey.key_eq (a b : PublicKey) : Bool :=
  PublicKey.cmp a b = .eq

/-- Translation of the Ord impl for PrivateKey in keys/private.rs: the engine
comparison's sign picks the Ordering. -/
def PrivateKey.cmp (a b : PrivateKey) : Ordering :=
  let c := ec_private_key_compare a b
  if c < 0 then .lt
  else if c > 0 then .gt
  else .eq

/-- Translation of the PartialEq impl for PrivateKey in keys/private.rs:
equality holds exactly when the comparison answers Equal. -/
def PrivateKey.key_eq (a b : PrivateKey) : Bool :=
  PrivateKey.cmp a b = .eq

/-! ## Identity key store trait semantics (stores/identity_key_store.rs) -/

/-- Modelled from the spec: no concrete IdentityKeyStore implementation is
among the sources, only the trait; its documented trust-on-first-use contract
says an identity is trusted when no entry is on record or when the presented
key is byte-identical to the recorded one, and untrusted only on a mismatch.
The state is the map from addresses to recorded identity key bytes. -/
structure IdentityStoreState where
  identities : Address → Option (List Nat)

/-- Lookup of the recorded identity for an address, the trait's get_identity. -/
def IdentityStoreState.get_identity (st : IdentityStoreState) (addr : Address) :
    Option (List Nat) :=
  st.identities addr

/-- Modelled from the spec: the trait's is_trusted_identity under
trust-on-first-use; trusted when nothing is on record, otherwise trusted
exactly on a byte-identical key. -/
def IdentityStoreState.is_trusted_identity (st : IdentityStoreState)
    (addr : Address) (identity_key : List Nat) : Bool :=
  match st.identities addr with
  | none => true
  | some recorded => recorded = identity_key

/-! ## Store adapter layer (stores/identity_key_store.rs, stores/pre_key_store.rs)

An application store implementation is a record of its trait methods.  Each
method's outcome is wrapped in Option: none embeds a call that panics, some
the value the call returns.  The extern adapters below translate each entry
point, with the panic branch modelled from the spec: the catch-unwind macro
around every application call is not among the sources, and the spec requires
a caught panic to surface to the engine as the unknown engine error status
instead of unwinding. -/

/-- Application implementation of the IdentityKeyStore trait; none embeds a
panicking call. -/
structure IdentityKeyStoreImpl where
  identity_key_pair : Option (Except Error (Buffer × Buffer))
  local_registration_id : Option (Except Error Nat)
  save_identity : Address → List Nat → Option (Except Error Unit)
  is_trusted_identity : Address → List Nat → Option (Except Error Bool)
  get_identity : Address → Option (Except Error (Option Buffer))

/-- Application implementation of the PreKeyStore trait; none embeds a
panicking call.  load yields the bytes it writes into the sink on success. -/
structure PreKeyStoreImpl where
  load : Nat → Option (Except Unit Buffer)
  store : Nat → List Nat → Option (Except InternalError Unit)
  contains : Nat → Option Bool
  remove : Nat → Option (Except InternalError Unit)

/-- Translation of the extern adapter get_identity_key_pair: status code plus
the two output buffers it hands the engine. -/
def get_identity_key_pair_cb (ist : IdentityKeyStoreImpl) :
    Int × Option (Buffer × Buffer) :=
  match ist.identity_key_pair with
  | none => (InternalError.unknown.code, none)
  | some (.ok pair) => (SG_SUCCESS, some pair)
  | some (.error e) => (e.code, none)

/-- Translation of the extern adapter get_local_registration_id: status code
plus the output registration id. -/
def get_local_registration_id_cb (ist : IdentityKeyStoreImpl) :
    Int × Option Nat :=
  match ist.local_registration_id with
  | none => (InternalError.unknown.code, none)
  | some (.ok id) => (SG_SUCCESS, some id)
  | some (.error e) => (e.code, none)

/-- Translation of the extern adapter save_identity. -/
def save_identity_cb (ist : IdentityKeyStoreImpl) (addr : Address)
    (key : List Nat) : Int :=
  match ist.save_identity addr key with
  | none => InternalError.unknown.code
  | some (.ok _) => SG_SUCCESS
  | some (.error e) => e.code

/-- Translation of the extern adapter is_trusted_identity: a trusted answer is
reported as 1, an untrusted one as 0, an error as its code. -/
def is_trusted_identity_cb (ist : IdentityKeyStoreImpl) (addr : Address)
    (key : List Nat) : Int :=
  match ist.is_trusted_identity addr key with
  | none => InternalError.unknown.code
  | some (.ok true) => 1
  | some (.ok false) => 0
  | some (.error e) => e.code

/-- Translation of the extern adapter get_identity: on a found record the
success status with the record buffer, on no record the success status with
the output pointer left null, on an error its code. -/
def get_identity_cb (ist : IdentityKeyStoreImpl) (addr : Address) :
    Int × Option Buffer :=
  match ist.get_identity addr with
  | none => (InternalError.unknown.code, none)
  | some (.ok (some identity)) => (SG_SUCCESS, some identity)
  | some (.ok none) => (0, none)
  | some (.error e) => (e.code, none)

/-- Translation of the extern adapter load_pre_key from
stores/pre_key_store.rs: status code plus the record buffer handed to the
engine; an application error is logged and mapped to the unknown kind. -/
def load_pre_key_cb (pst : PreKeyStoreImpl) (pre_key_id : Nat) :
    Int × Option Buffer :=
  match pst.load pre_key_id with
  | none => (InternalError.unknown.code, none)
  | some (.ok buffer) => (SG_SUCCESS, some buffer)
  | some (.error _) => (InternalError.unknown.code, none)

/-- Translation of the extern adapter store_pre_key. -/
def store_pre_key_cb (pst : PreKeyStoreImpl) (pre_key_id : Nat)
    (record : List Nat) : Int :=
  match pst.store pre_key_id record with
  | none => InternalError.unknown.code
  | some (.ok _) => SG_SUCCESS
  | some (.error e) => e.code

/-- Translation of the extern adapter contains_pre_key: the infallible boolean
answer is cast to a c_int, a caught panic becomes the unknown engine error
status. -/
def contains_pre_key_cb (pst : PreKeyStoreImpl) (pre_key_id : Nat) : Int :=
  match pst.contains pre_key_id with
  | none => InternalError.unknown.code
  | some b => if b then 1 else 0

/-- Translation of the extern adapter remove_pre_key. -/
def remove_pre_key_cb (pst : PreKeyStoreImpl) (pre_key_id : Nat) : Int :=
  match pst.remove pre_key_id with
  | none => InternalError.unknown.code
  | some (.ok _) => SG_SUCCESS
  | some (.error e) => e.code

/-! ## Store context facade (store_context.rs) -/

/-- Session state is opaque serialized bytes to this layer. -/
abbrev SessionRecord := List Nat

/-- Fresh, empty session record. -/
def fresh_session_record : SessionRecord := []

/-- Modelled from the spec: signal_protocol_session_load_session is engine
code, not among the sources; per the spec it answers with the stored record,
or a fresh empty one when no session exists, under a success status. -/
def signal_protocol_session_load_session
    (sessions : Address → Option SessionRecord) (addr : Address) :
    Int × SessionRecord :=
  (SG_SUCCESS, (sessions addr).getD fresh_session_record)

/-- Translation of StoreContext::load_session from store_context.rs: the
engine status goes through into_result, a success yields the loaded record. -/
def StoreContext.load_session (sessions : Address → Option SessionRecord)
    (addr : Address) : Except Error SessionRecord :=
  let r := signal_protocol_session_load_session sessions addr
  match into_result r.1 with
  | .error e => .error (.internal e)
  | .ok _ => .ok r.2

/-- Translation of StoreContext::contains_session from store_context.rs, with
the return value of the engine call as the input: 0 answers false, 1 answers
true, any other code maps through the table with the unknown fallback. -/
def StoreContext.contains_session (code : Int) : Except Error Bool :=
  if code = 0 then .ok false
  else if code = 1 then .ok true
  else .error (.internal ((InternalError.from_error_code code).getD .unknown))

/-- Modelled from the spec: signal_protocol_identity_get_identity is engine
code, not among the sources; it forwards to the registered identity-store
callback and passes the caller's output-buffer pointer through unchanged. -/
def signal_protocol_identity_get_identity (ist : IdentityKeyStoreImpl)
    (addr : Address) : Int × Option Buffer :=
  get_identity_cb ist addr

/-- Translation of StoreContext::get_identity from store_context.rs: the
engine status goes through into_result, then a null output buffer answers
none and a present buffer answers some. -/
def StoreContext.get_identity (ist : IdentityKeyStoreImpl) (addr : Address) :
    Except Error (Option Buffer) :=
  let r := signal_protocol_identity_get_identity ist addr
  match into_result r.1 with
  | .error e => .error (.internal e)
  | .ok _ =>
    match r.2 with
    | none => .ok none
    | some buffer => .ok (some buffer)

/-! ## Signal message (messages/signal_message.rs) -/

/-- Ciphertext message kinds the codec distinguishes. -/
inductive CiphertextType where
  | signal
  | preKeySignal
  | senderKey
  | senderKeyDistribution
deriving DecidableEq

/-- Translation of CiphertextMessage: the raw engine message and the context
handle it keeps alive, both embedded as identifiers. -/
structure CiphertextMessage where
  raw : Nat
  ctx : Nat
deriving DecidableEq

/-- Translation of SignalMessage: the raw engine message and the context
handle it keeps alive. -/
structure SignalMessage where
  raw : Nat
  ctx : Nat
deriving DecidableEq

/-- Translation of SignalMessage::verify_mac from messages/signal_message.rs,
with the return value of the engine call signal_message_verify_mac as the
input: 0 answers false, 1 answers true, any other code maps through the table
with the unknown fallback. -/
def SignalMessage.verify_mac (code : Int) : Except Error Bool :=
  if code = 0 then .ok false
  else if code = 1 then .ok true
  else .error (.internal ((InternalError.from_error_code code).getD .unknown))

/-- Translation of the TryFrom conversion from CiphertextMessage to
SignalMessage: the outcome of the get_type query is the first input; a query
failure propagates through the question-mark operator, a non-Signal type
fails with the no-signal-message error, and the Signal type succeeds with a
message wrapping the same raw message and context. -/
def SignalMessage.try_from (get_type_result : Except Error CiphertextType)
    (other : CiphertextMessage) : Except Error SignalMessage :=
  match get_type_result with
  | .error e => .error e
  | .ok t =>
    if t ≠ .signal then .error .noSignalMessage
    else .ok ⟨other.raw, other.ctx⟩

/-! ## Helper lemmas -/

/-- Every specific failure kind's status code is negative. -/
theorem internal_code_neg (e : InternalError) : e.code < 0 := by
  cases e <;> decide

/-- Every crate error reports a negative status code. -/
theorem error_code_neg (e : Error) : e.code < 0 := by
  cases e with
  | internal e0 => exact internal_code_neg e0
  | noSignalMessage => decide

/-- Values the byte comparison can take. -/
theorem byte_compare_range (xs ys : List Nat) :
    byte_compare xs ys = -1 ∨ byte_compare xs ys = 0 ∨ byte_compare xs ys = 1 := by
  induction xs generalizing ys with
  | nil => cases ys <;> simp [byte_compare]
  | cons x xs ih =>
    cases ys with
    | nil => simp [byte_compare]
    | cons y ys =>
      simp only [byte_compare]
      split
      · simp
      · split
        · simp
        · exact ih ys

/-- The byte comparison answers zero exactly on equal byte strings. -/
theorem byte_compare_eq_zero (xs ys : List Nat) :
    byte_compare xs ys = 0 ↔ xs = ys := by
  induction xs generalizing ys with
  | nil => cases ys <;> simp [byte_compare]
  | cons x xs ih =>
    cases ys with
    | nil => simp [byte_compare]
    | cons y ys =>
      simp only [byte_compare, List.cons.injEq]
      rcases Nat.lt_trichotomy x y with h | h | h
      · rw [if_pos h]
        constructor
        · intro h0; omega
        · intro h0; omega
      · subst h
        rw [if_neg (by omega), if_neg (by omega)]
        simp [ih]
      · rw [if_neg (by omega), if_pos h]
        constructor
        · intro h0; omega
        · intro h0; omega

/-- Swapping the arguments negates the byte comparison. -/
theorem byte_compare_swap (xs ys : List Nat) :
    byte_compare ys xs = -byte_compare xs ys := by
  induction xs generalizing ys with
  | nil => cases ys <;> simp [byte_compare]
  | cons x xs ih =>
    cases ys with
    | nil => simp [byte_compare]
    | cons y ys =>
      simp only [byte_compare]
      split_ifs <;> first | omega | exact ih ys

/-- The strict part of the byte comparison is transitive. -/
theorem byte_compare_trans (xs ys zs : List Nat)
    (h1 : byte_compare xs ys = -1) (h2 : byte_compare ys zs = -1) :
    byte_compare xs zs = -1 := by
  induction xs generalizing ys zs with
  | nil =>
    cases ys with
    | nil => simp [byte_compare] at h1
    | cons y ys =>
      cases zs with
      | nil => simp [byte_compare] at h2
      | cons z zs => simp [byte_compare]
  | cons x xs ih =>
    cases ys with
    | nil => simp [byte_compare] at h1
    | cons y ys =>
      cases zs with
      | nil => simp [byte_compare] at h2
      | cons z zs =>
        simp only [byte_compare] at h1 h2 ⊢
        rcases Nat.lt_trichotomy x y with hxy | hxy | hxy
        · rcases Nat.lt_trichotomy y z with hyz | hyz | hyz
          · rw [if_pos (by omega)]
          · subst hyz; rw [if_pos hxy]
          · rw [if_pos hyz, if_neg (by omega)] at h2
            omega
        · subst hxy
          rcases Nat.lt_trichotomy x z with hxz | hxz | hxz
          · rw [if_pos hxz]
          · subst hxz
            rw [if_neg (by omega), if_neg (by omega)] at h1 h2 ⊢
            exact ih ys zs h1 h2
          · rw [if_neg (by omega), if_pos hxz] at h2
            omega
        · rw [if_neg (by omega), if_pos hxy] at h1
          omega

/-- Sign analysis of the Ordering the Rust Ord impls build from an engine
comparison value. -/
theorem rust_ordering_cases (c : Int) :
    ((if c < 0 then Ordering.lt else if c > 0 then .gt else .eq) = .lt ↔ c < 0) ∧
    ((if c < 0 then Ordering.lt else if c > 0 then .gt else .eq) = .gt ↔ c > 0) ∧
    ((if c < 0 then Ordering.lt else if c > 0 then .gt else .eq) = .eq ↔ c = 0) := by
  rcases Int.lt_trichotomy c 0 with h | h | h
  · rw [if_pos h]
    refine ⟨by simp [h], by simp; omega, by simp; omega⟩
  · subst h
    rw [if_neg (by omega), if_neg (by omega)]
    refine ⟨by simp, by simp, by simp⟩
  · rw [if_neg (by omega), if_pos h]
    refine ⟨by simp; omega, by simp [h], by simp; omega⟩

/-! ## Claims -/

/-- C1: trust-on-first-use.  For every identity store state, address and key
bytes, if get_identity answers none then is_trusted_identity answers true for
any key; if get_identity answers some recorded key then is_trusted_identity
answers true on that key and false on every different key. -/
theorem c1_tofu (st : IdentityStoreState) (addr : Address) (k other : List Nat) :
    (st.get_identity addr = none → st.is_trusted_identity addr k = true) ∧
    (st.get_identity addr = some k →
      st.is_trusted_identity addr k = true ∧
      (other ≠ k → st.is_trusted_identity addr other = false)) := by
  unfold IdentityStoreState.get_identity IdentityStoreState.is_trusted_identity
  cases h : st.identities addr with
  | none => simp
  | some recorded =>
    simp only [Option.some.injEq, reduceCtorEq, false_implies, true_and]
    intro hrec
    subst hrec
    refine ⟨by simp, fun hne => by simp [Ne.symm hne]⟩

/-- Closed instance of c1_tofu: an empty store trusts any key, and a store
recording one key trusts exactly that key. -/
theorem c1_tofu_witness :
    IdentityStoreState.is_trusted_identity ⟨fun _ => none⟩ ⟨[], 0⟩ [9] = true ∧
    IdentityStoreState.is_trusted_identity ⟨fun _ => some [1, 2]⟩ ⟨[], 0⟩ [1, 2] = true ∧
    IdentityStoreState.is_trusted_identity ⟨fun _ => some [1, 2]⟩ ⟨[], 0⟩ [3] = false := by
  have h1 := c1_tofu ⟨fun _ => none⟩ ⟨[], 0⟩ [9] [9]
  have h2 := c1_tofu ⟨fun _ => some [1, 2]⟩ ⟨[], 0⟩ [1, 2] [3]
  exact ⟨h1.1 rfl, (h2.2 rfl).1, (h2.2 rfl).2 (by decide)⟩

/-- C2: fault isolation at every store-callback entry point.  For every
application identity-store and pre-key-store implementation and every input,
a panicking call (embedded as none) makes the adapter entry point report the
unknown engine error status code, a failure status distinct from success;
being total Lean functions, the adapters return this status instead of
unwinding. -/
theorem c2_fault_isolation (ist : IdentityKeyStoreImpl) (pst : PreKeyStoreImpl)
    (addr : Address) (key body : Buffer) (id : Nat) :
    (ist.identity_key_pair = none →
      (get_identity_key_pair_cb ist).1 = InternalError.unknown.code) ∧
    (ist.local_registration_id = none →
      (get_local_registration_id_cb ist).1 = InternalError.unknown.code) ∧
    (ist.save_identity addr key = none →
      save_identity_cb ist addr key = InternalError.unknown.code) ∧
    (ist.is_trusted_identity addr key = none →
      is_trusted_identity_cb ist addr key = InternalError.unknown.code) ∧
    (ist.get_identity addr = none →
      (get_identity_cb ist addr).1 = InternalError.unknown.code) ∧
    (pst.load id = none →
      (load_pre_key_cb pst id).1 = InternalError.unknown.code) ∧
    (pst.store id body = none →
      store_pre_key_cb pst id body = InternalError.unknown.code) ∧
    (pst.contains id = none →
      contains_pre_key_cb pst id = InternalError.unknown.code) ∧
    (pst.remove id = none →
      remove_pre_key_cb pst id = InternalError.unknown.code) ∧
    InternalError.unknown.code < 0 ∧ InternalError.unknown.code ≠ SG_SUCCESS := by
  refine ⟨?_, ?_, ?_, ?_, ?_, ?_, ?_, ?_, ?_, by decide, by decide⟩
  · intro h; simp [get_identity_key_pair_cb, h]
  · intro h; simp [get_local_registration_id_cb, h]
  · intro h; simp [save_identity_cb, h]
  · intro h; simp [is_trusted_identity_cb, h]
  · intro h; simp [get_identity_cb, h]
  · intro h; simp [load_pre_key_cb, h]
  · intro h; simp [store_pre_key_cb, h]
  · intro h; simp [contains_pre_key_cb, h]
  · intro h; simp [remove_pre_key_cb, h]

/-- Closed instance of c2_fault_isolation: every adapter entry point over an
implementation whose every method panics reports the unknown engine error
status code. -/
theorem c2_fault_isolation_witness :
    (get_identity_key_pair_cb
      ⟨none, none, fun _ _ => none, fun _ _ => none, fun _ => none⟩).1 =
      InternalError.unknown.code ∧
    (get_local_registration_id_cb
      ⟨none, none, fun _ _ => none, fun _ _ => none, fun _ => none⟩).1 =
      InternalError.unknown.code ∧
    save_identity_cb
      ⟨none, none, fun _ _ => none, fun _ _ => none, fun _ => none⟩ ⟨[], 0⟩ [] =
      InternalError.unknown.code ∧
    is_trusted_identity_cb
      ⟨none, none, fun _ _ => none, fun _ _ => none, fun _ => none⟩ ⟨[], 0⟩ [] =
      InternalError.unknown.code ∧
    (get_identity_cb
      ⟨none, none, fun _ _ => none, fun _ _ => none, fun _ => none⟩ ⟨[], 0⟩).1 =
      InternalError.unknown.code ∧
    (load_pre_key_cb
      ⟨fun _ => none, fun _ _ => none, fun _ => none, fun _ => none⟩ 7).1 =
      InternalError.unknown.code ∧
    store_pre_key_cb
      ⟨fun _ => none, fun _ _ => none, fun _ => none, fun _ => none⟩ 7 [] =
      InternalError.unknown.code ∧
    contains_pre_key_cb
      ⟨fun _ => none, fun _ _ => none, fun _ => none, fun _ => none⟩ 7 =
      InternalError.unknown.code ∧
    remove_pre_key_cb
      ⟨fun _ => none, fun _ _ => none, fun _ => none, fun _ => none⟩ 7 =
      InternalError.unknown.code := by
  have h := c2_fault_isolation
    ⟨none, none, fun _ _ => none, fun _ _ => none, fun _ => none⟩
    ⟨fun _ => none, fun _ _ => none, fun _ => none, fun _ => none⟩
    ⟨[], 0⟩ [] [] 7
  exact ⟨h.1 rfl, h.2.1 rfl, h.2.2.1 rfl, h.2.2.2.1 rfl, h.2.2.2.2.1 rfl,
    h.2.2.2.2.2.1 rfl, h.2.2.2.2.2.2.1 rfl, h.2.2.2.2.2.2.2.1 rfl,
    h.2.2.2.2.2.2.2.2.1 rfl⟩

/-- C7: for every session store state and address, StoreContext::load_session
succeeds with a record, the stored one when a session exists and the fresh
empty record otherwise; it never answers with an error. -/
theorem c7_load_session_total (sessions : Address → Option SessionRecord)
    (addr : Address) :
    StoreContext.load_session sessions addr =
      .ok ((sessions addr).getD fresh_session_record) := by
  simp [StoreContext.load_session, signal_protocol_session_load_session,
    into_result, SG_SUCCESS]

/-- C3: PublicKey::verify_signature has exactly three distinguishable
outcomes over the engine comparison value: success exactly on 1, the
invalid-signature error exactly on 0, and for any other value a distinct
engine or computation error, a mapped failure kind or the unknown-code
error, which is neither success nor the invalid-signature error. -/
theorem c3_verify_signature_three_way (result : Int) :
    (PublicKey.verify_signature result = .ok () ↔ result = 1) ∧
    (PublicKey.verify_signature result = .error .invalidSignature ↔ result = 0) ∧
    (result ≠ 1 → result ≠ 0 →
      PublicKey.verify_signature result = .error (engine_failure result) ∧
      (Except.error (engine_failure result) : Except FailureError Unit) ≠ .ok () ∧
      (Except.error (engine_failure result) : Except FailureError Unit) ≠
        .error .invalidSignature) := by
  by_cases h1 : result = 1
  · subst h1
    refine ⟨by simp [PublicKey.verify_signature], by simp [PublicKey.verify_signature], by omega⟩
  · by_cases h0 : result = 0
    · subst h0
      refine ⟨by simp [PublicKey.verify_signature], by simp [PublicKey.verify_signature], by omega⟩
    · refine ⟨?_, ?_, fun _ _ => ⟨?_, by simp, ?_⟩⟩
      · simp only [PublicKey.verify_signature, if_neg h1, if_neg h0]
        cases InternalError.from_error_code result <;> simp [h1]
      · simp only [PublicKey.verify_signature, if_neg h1, if_neg h0]
        cases h : InternalError.from_error_code result <;> simp [h0]
      · simp only [PublicKey.verify_signature, engine_failure, if_neg h1, if_neg h0]
        cases h : InternalError.from_error_code result <;> simp [h]
      · simp only [engine_failure]
        cases InternalError.from_error_code result <;> simp

/-- Closed instance of c3_verify_signature_three_way: the engine values 0 and
a mapped negative code yield the two distinct error outcomes. -/
theorem c3_verify_signature_witness :
    PublicKey.verify_signature 0 = .error .invalidSignature ∧
    PublicKey.verify_signature (-1002) = .error (.internal .invalidKey) := by
  have h0 := c3_verify_signature_three_way 0
  have h2 := c3_verify_signature_three_way (-1002)
  refine ⟨h0.2.1.mpr rfl, ?_⟩
  rw [(h2.2.2 (by decide) (by decide)).1]
  decide

/-- C4: the claim is right and the code is wrong.  PublicKey::calculate_agreement
casts the engine's c_int to usize before testing it against zero, so a
negative engine report such as -1 becomes the length 2 to the 64 minus 1,
passes the positivity test and takes the success path (reading a slice of
that many bytes) instead of answering the agreement error the claim and the
spec require for a non-positive report; an error is answered only when the
cast length is zero, and a success indeed never carries length zero. -/
theorem c4_calculate_agreement_bug :
    PublicKey.calculate_agreement (-1) = .ok (2 ^ 64 - 1) ∧
    PublicKey.calculate_agreement 0 = .error .agreementError ∧
    PublicKey.calculate_agreement 32 = .ok 32 := by
  decide

/-- C5: serialization round-trip for public keys.  Decoding a valid encoded
key and serializing the result gives back the same bytes, and a valid key
(32-byte coordinate) decodes from its own serialization to a key comparing
Equal to it. -/
theorem c5_round_trip (b : List Nat) (k k2 : PublicKey) :
    (PublicKey.decode_point b = .ok k → PublicKey.serialize k = b) ∧
    (k2.coord.length = 32 →
      PublicKey.decode_point (PublicKey.serialize k2) = .ok k2 ∧
      PublicKey.cmp k2 k2 = .eq) := by
  constructor
  · intro hdec
    by_cases h : b.length = 33 ∧ b.head? = some DJB_TYPE
    · rw [PublicKey.decode_point, if_pos h] at hdec
      cases hdec
      cases b with
      | nil => simp at h
      | cons hd tl =>
        have hhd : hd = DJB_TYPE := by
          have := h.2
          simp only [List.head?] at this
          exact (Option.some.inj this)
        simp [PublicKey.serialize, hhd]
    · rw [PublicKey.decode_point, if_neg h] at hdec
      cases hdec
  · intro h32
    constructor
    · rw [PublicKey.decode_point, if_pos (by simp [PublicKey.serialize, h32])]
      simp [PublicKey.serialize]
    · have h0 : byte_compare k2.coord k2.coord = 0 :=
        (byte_compare_eq_zero _ _).mpr rfl
      simp [PublicKey.cmp, ec_public_key_compare, h0]

/-- Closed instance of c5_round_trip at the all-zero coordinate. -/
theorem c5_round_trip_witness :
    PublicKey.serialize ⟨List.replicate 32 0⟩ = DJB_TYPE :: List.replicate 32 0 ∧
    PublicKey.decode_point (PublicKey.serialize ⟨List.replicate 32 0⟩) =
      .ok ⟨List.replicate 32 0⟩ := by
  have h := c5_round_trip (DJB_TYPE :: List.replicate 32 0)
    ⟨List.replicate 32 0⟩ ⟨List.replicate 32 0⟩
  exact ⟨h.1 (by decide), (h.2 (by decide)).1⟩

/-- C6: the comparison of public keys and of private keys is a strict total
order with equality derived from it: every comparison answers one of the
three Orderings, swapping the arguments swaps the answer (so exactly one of
less, Equal, greater relates two keys), the answer is Equal exactly on keys
with identical canonical bytes (not object identity), the derived equality
test agrees with the comparison, and the strict order is transitive. -/
theorem c6_key_order (a b c : PublicKey) (p q r : PrivateKey) :
    (PublicKey.cmp a b = .lt ∨ PublicKey.cmp a b = .eq ∨ PublicKey.cmp a b = .gt) ∧
    ((PublicKey.cmp a b).swap = PublicKey.cmp b a) ∧
    (PublicKey.cmp a b = .eq ↔ a = b) ∧
    (PublicKey.key_eq a b = true ↔ PublicKey.cmp a b = .eq) ∧
    (PublicKey.cmp a b = .lt → PublicKey.cmp b c = .lt → PublicKey.cmp a c = .lt) ∧
    (PrivateKey.cmp p q = .lt ∨ PrivateKey.cmp p q = .eq ∨ PrivateKey.cmp p q = .gt) ∧
    ((PrivateKey.cmp p q).swap = PrivateKey.cmp q p) ∧
    (PrivateKey.cmp p q = .eq ↔ p = q) ∧
    (PrivateKey.key_eq p q = true ↔ PrivateKey.cmp p q = .eq) ∧
    (PrivateKey.cmp p q = .lt → PrivateKey.cmp q r = .lt → PrivateKey.cmp p r = .lt) := by
  have pub_cases := fun (x y : PublicKey) =>
    rust_ordering_cases (ec_public_key_compare x y)
  have priv_cases := fun (x y : PrivateKey) =>
    rust_ordering_cases (ec_private_key_compare x y)
  have hcmp_pub : ∀ x y : PublicKey, PublicKey.cmp x y =
      (if ec_public_key_compare x y < 0 then Ordering.lt
        else if ec_public_key_compare x y > 0 then .gt else .eq) := by
    intro x y; rfl
  have hcmp_priv : ∀ x y : PrivateKey, PrivateKey.cmp x y =
      (if ec_private_key_compare x y < 0 then Ordering.lt
        else if ec_private_key_compare x y > 0 then .gt else .eq) := by
    intro x y; rfl
  refine ⟨?_, ?_, ?_, ?_, ?_, ?_, ?_, ?_, ?_, ?_⟩
  · rw [hcmp_pub]
    split_ifs <;> simp
  · rw [hcmp_pub, hcmp_pub]
    have hswap : ec_public_key_compare b a = -ec_public_key_compare a b :=
      byte_compare_swap a.coord b.coord
    rw [hswap]
    rcases byte_compare_range a.coord b.coord with h | h | h <;>
      · rw [show ec_public_key_compare a b = byte_compare a.coord b.coord from rfl, h]
        decide
  · rw [hcmp_pub, (pub_cases a b).2.2]
    rw [show ec_public_key_compare a b = byte_compare a.coord b.coord from rfl]
    rw [byte_compare_eq_zero]
    cases a; cases b; simp
  · rw [PublicKey.key_eq, decide_eq_true_iff]
  · intro hab hbc
    rw [hcmp_pub, (pub_cases a c).1]
    rw [hcmp_pub, (pub_cases a b).1] at hab
    rw [hcmp_pub, (pub_cases b c).1] at hbc
    have h1 : byte_compare a.coord b.coord = -1 := by
      rcases byte_compare_range a.coord b.coord with h | h | h <;>
        first
          | exact h
          | (exfalso; revert hab;
             rw [show ec_public_key_compare a b = byte_compare a.coord b.coord from rfl, h];
             omega)
    have h2 : byte_compare b.coord c.coord = -1 := by
      rcases byte_compare_range b.coord c.coord with h | h | h <;>
        first
          | exact h
          | (exfalso; revert hbc;
             rw [show ec_public_key_compare b c = byte_compare b.coord c.coord from rfl, h];
             omega)
    rw [show ec_public_key_compare a c = byte_compare a.coord c.coord from rfl,
      byte_compare_trans _ _ _ h1 h2]
    decide
  · rw [hcmp_priv]
    split_ifs <;> simp
  · rw [hcmp_priv, hcmp_priv]
    have hswap : ec_private_key_compare q p = -ec_private_key_compare p q :=
      byte_compare_swap p.scalar q.scalar
    rw [hswap]
    rcases byte_compare_range p.scalar q.scalar with h | h | h <;>
      · rw [show ec_private_key_compare p q = byte_compare p.scalar q.scalar from rfl, h]
        decide
  · rw [hcmp_priv, (priv_cases p q).2.2]
    rw [show ec_private_key_compare p q = byte_compare p.scalar q.scalar from rfl]
    rw [byte_compare_eq_zero]
    cases p; cases q; simp
  · rw [PrivateKey.key_eq, decide_eq_true_iff]
  · intro hpq hqr
    rw [hcmp_priv, (priv_cases p r).1]
    rw [hcmp_priv, (priv_cases p q).1] at hpq
    rw [hcmp_priv, (priv_cases q r).1] at hqr
    have h1 : byte_compare p.scalar q.scalar = -1 := by
      rcases byte_compare_range p.scalar q.scalar with h | h | h <;>
        first
          | exact h
          | (exfalso; revert hpq;
             rw [show ec_private_key_compare p q = byte_compare p.scalar q.scalar from rfl, h];
             omega)
    have h2 : byte_compare q.scalar r.scalar = -1 := by
      rcases byte_compare_range q.scalar r.scalar with h | h | h <;>
        first
          | exact h
          | (exfalso; revert hqr;
             rw [show ec_private_key_compare q r = byte_compare q.scalar r.scalar from rfl, h];
             omega)
    rw [show ec_private_key_compare p r = byte_compare p.scalar r.scalar from rfl,
      byte_compare_trans _ _ _ h1 h2]
    decide

/-- Closed instance of c6_key_order: transitivity of the strict order on
three concrete keys of each kind. -/
theorem c6_key_order_witness :
    PublicKey.cmp ⟨[0]⟩ ⟨[2]⟩ = .lt ∧ PrivateKey.cmp ⟨[0]⟩ ⟨[2]⟩ = .lt := by
  have h := c6_key_order ⟨[0]⟩ ⟨[1]⟩ ⟨[2]⟩ ⟨[0]⟩ ⟨[1]⟩ ⟨[2]⟩
  exact ⟨h.2.2.2.2.1 (by decide) (by decide),
    h.2.2.2.2.2.2.2.2.2 (by decide) (by decide)⟩

/-- C8: boolean-returning engine-boundary operations follow the fixed code
table.  StoreContext::contains_session and SignalMessage::verify_mac answer
false exactly on engine code 0 and true exactly on code 1, and on any other
code answer the error mapped through the table with the unknown-engine-error
fallback for an unmapped code; symmetrically the is_trusted_identity adapter
reports a true answer as 1 and a false answer as 0. -/
theorem c8_code_table (code : Int) (ist : IdentityKeyStoreImpl)
    (addr : Address) (key : List Nat) :
    (StoreContext.contains_session code = .ok false ↔ code = 0) ∧
    (StoreContext.contains_session code = .ok true ↔ code = 1) ∧
    (SignalMessage.verify_mac code = .ok false ↔ code = 0) ∧
    (SignalMessage.verify_mac code = .ok true ↔ code = 1) ∧
    (code ≠ 0 → code ≠ 1 →
      StoreContext.contains_session code =
        .error (.internal ((InternalError.from_error_code code).getD .unknown)) ∧
      SignalMessage.verify_mac code =
        .error (.internal ((InternalError.from_error_code code).getD .unknown))) ∧
    (InternalError.from_error_code code = none → code ≠ 0 → code ≠ 1 →
      StoreContext.contains_session code = .error (.internal .unknown) ∧
      SignalMessage.verify_mac code = .error (.internal .unknown)) ∧
    (ist.is_trusted_identity addr key = some (.ok true) →
      is_trusted_identity_cb ist addr key = 1) ∧
    (ist.is_trusted_identity addr key = some (.ok false) →
      is_trusted_identity_cb ist addr key = 0) := by
  by_cases h0 : code = 0
  · subst h0
    refine ⟨by simp [StoreContext.contains_session], by simp [StoreContext.contains_session],
      by simp [SignalMessage.verify_mac], by simp [SignalMessage.verify_mac],
      by omega, by omega,
      fun h => by simp [is_trusted_identity_cb, h],
      fun h => by simp [is_trusted_identity_cb, h]⟩
  · by_cases h1 : code = 1
    · subst h1
      refine ⟨by simp [StoreContext.contains_session], by simp [StoreContext.contains_session],
        by simp [SignalMessage.verify_mac], by simp [SignalMessage.verify_mac],
        by omega, by omega,
        fun h => by simp [is_trusted_identity_cb, h],
        fun h => by simp [is_trusted_identity_cb, h]⟩
    · refine ⟨by simp [StoreContext.contains_session, h0, h1],
        by simp [StoreContext.contains_session, h0, h1],
        by simp [SignalMessage.verify_mac, h0, h1],
        by simp [SignalMessage.verify_mac, h0, h1],
        fun _ _ => ⟨by simp [StoreContext.contains_session, h0, h1],
          by simp [SignalMessage.verify_mac, h0, h1]⟩,
        fun hmap _ _ => ⟨by simp [StoreContext.contains_session, h0, h1, hmap],
          by simp [SignalMessage.verify_mac, h0, h1, hmap]⟩,
        fun h => by simp [is_trusted_identity_cb, h],
        fun h => by simp [is_trusted_identity_cb, h]⟩

/-- Closed instance of c8_code_table: an unmapped engine code answers the
unknown engine error from both boolean operations, and a trusted answer is
reported to the engine as 1. -/
theorem c8_code_table_witness :
    StoreContext.contains_session (-424242) = .error (.internal .unknown) ∧
    SignalMessage.verify_mac (-424242) = .error (.internal .unknown) ∧
    is_trusted_identity_cb
      ⟨none, none, fun _ _ => none, fun _ _ => some (.ok true), fun _ => none⟩
      ⟨[], 0⟩ [] = 1 := by
  have h := c8_code_table (-424242)
    ⟨none, none, fun _ _ => none, fun _ _ => some (.ok true), fun _ => none⟩
    ⟨[], 0⟩ []
  have h6 := h.2.2.2.2.2.1 (by decide) (by decide) (by decide)
  exact ⟨h6.1, h6.2, h.2.2.2.2.2.2.1 rfl⟩

/-- C9: StoreContext::get_identity distinguishes absence from failure.  Over
the adapter and the engine passthrough, it answers none exactly when the
application store succeeds with no record, answers a record exactly when the
application store succeeds with that record, and errs exactly when the
application call panics or answers an error. -/
theorem c9_get_identity (ist : IdentityKeyStoreImpl) (addr : Address) :
    (StoreContext.get_identity ist addr = .ok none ↔
      ist.get_identity addr = some (.ok none)) ∧
    (∀ b, StoreContext.get_identity ist addr = .ok (some b) ↔
      ist.get_identity addr = some (.ok (some b))) ∧
    ((∃ e, StoreContext.get_identity ist addr = .error e) ↔
      (ist.get_identity addr = none ∨
        ∃ e0, ist.get_identity addr = some (.error e0))) := by
  rcases h : ist.get_identity addr with _ | r
  · have : StoreContext.get_identity ist addr = .error (.internal .unknown) := by
      simp [StoreContext.get_identity, signal_protocol_identity_get_identity,
        get_identity_cb, h, into_result, InternalError.code,
        InternalError.from_error_code]
    simp [this, h]
  · rcases r with e | v
    · have hcode : ¬e.code = 0 := by
        have := error_code_neg e
        omega
      have : StoreContext.get_identity ist addr =
          .error (.internal ((InternalError.from_error_code e.code).getD .unknown)) := by
        simp [StoreContext.get_identity, signal_protocol_identity_get_identity,
          get_identity_cb, h, into_result, hcode]
      simp [this, h]
    · rcases v with _ | b
      · have : StoreContext.get_identity ist addr = .ok none := by
          simp [StoreContext.get_identity, signal_protocol_identity_get_identity,
            get_identity_cb, h, into_result]
        simp [this, h]
      · have : StoreContext.get_identity ist addr = .ok (some b) := by
          simp [StoreContext.get_identity, signal_protocol_identity_get_identity,
            get_identity_cb, h, into_result, SG_SUCCESS]
        simp [this, h]

/-- C10 counterexample: when the type query itself fails, the conversion does
not answer the no-signal-message error; it propagates the query's own error
unchanged, so the claim's condition for Err(NoSignalMessage) is too wide. -/
theorem c10_counterexample :
    SignalMessage.try_from (.error (.internal .invalidMac)) ⟨0, 0⟩ =
      .error (.internal .invalidMac) ∧
    SignalMessage.try_from (.error (.internal .invalidMac)) ⟨0, 0⟩ ≠
      .error .noSignalMessage := by
  decide

/-- C10 as amended: the conversion answers the no-signal-message error when
the type query succeeds with a non-Signal type, propagates a failed type
query's error unchanged, and on the Signal type succeeds with a message
wrapping the same underlying raw message and context. -/
theorem c10_try_from (m : CiphertextMessage) :
    (∀ e, SignalMessage.try_from (.error e) m = .error e) ∧
    (∀ t, t ≠ CiphertextType.signal →
      SignalMessage.try_from (.ok t) m = .error .noSignalMessage) ∧
    SignalMessage.try_from (.ok .signal) m = .ok ⟨m.raw, m.ctx⟩ := by
  refine ⟨fun e => rfl, fun t ht => ?_, rfl⟩
  simp [SignalMessage.try_from, ht]

/-- Closed instance of c10_try_from: a sender-key type answers the
no-signal-message error and the Signal type succeeds wrapping the same
message. -/
theorem c10_try_from_witness :
    SignalMessage.try_from (.ok .senderKey) ⟨3, 4⟩ = .error .noSignalMessage ∧
    SignalMessage.try_from (.ok .signal) ⟨3, 4⟩ = .ok ⟨3, 4⟩ := by
  have h := c10_try_from ⟨3, 4⟩
  exact ⟨h.2.1 .senderKey (by decide), h.2.2⟩
